import Mathlib

/-!
Verification of the Vulkan-API-Book tutorial code: the `setImageLayout`
image-layout-transition helper (chapter "Image Layouts") and the
device/surface initialization routines of `VulkanExample`
(`initDevices`, `initSurface`).

The C++ is shallowly embedded: Vulkan enums become inductive types or
`Nat`/`Int` constants with their actual Vulkan 1.0 values, structs become
Lean structures, `= {}` zero-initialization becomes an explicit
all-zero record, and command recording into a `VkCommandBuffer` becomes
appending a record to a list of recorded commands.
-/

/-! ## Vulkan constants (actual Vulkan 1.0 values) -/

def VK_SUCCESS : Int := 0

def VK_ACCESS_SHADER_READ_BIT : Nat := 32
def VK_ACCESS_COLOR_ATTACHMENT_WRITE_BIT : Nat := 256
def VK_ACCESS_DEPTH_STENCIL_ATTACHMENT_WRITE_BIT : Nat := 1024
def VK_ACCESS_TRANSFER_READ_BIT : Nat := 2048
def VK_ACCESS_TRANSFER_WRITE_BIT : Nat := 4096
def VK_ACCESS_HOST_WRITE_BIT : Nat := 16384

/-- `VK_QUEUE_FAMILY_IGNORED` is `(~0U)`, i.e. `0xFFFFFFFF`. -/
def VK_QUEUE_FAMILY_IGNORED : Nat := 4294967295

def VK_PIPELINE_STAGE_TOP_OF_PIPE_BIT : Nat := 1

def VK_STRUCTURE_TYPE_IMAGE_MEMORY_BARRIER : Nat := 45

def VK_FORMAT_UNDEFINED : Nat := 0
def VK_FORMAT_B8G8R8A8_UNORM : Nat := 44

/-- The `VkImageLayout` enumeration (all nine Vulkan 1.0 core values). -/
inductive VkImageLayout where
  | undefined
  | general
  | colorAttachmentOptimal
  | depthStencilAttachmentOptimal
  | depthStencilReadOnlyOptimal
  | shaderReadOnlyOptimal
  | transferSrcOptimal
  | transferDstOptimal
  | preinitialized
deriving DecidableEq, Repr

/-- `VkImageSubresourceRange`. -/
structure VkImageSubresourceRange where
  aspectMask : Nat
  baseMipLevel : Nat
  levelCount : Nat
  baseArrayLayer : Nat
  layerCount : Nat
deriving DecidableEq, Repr

/-- `VkImageMemoryBarrier`.  `pNext` and `image` are opaque handles,
modelled as `Nat`. -/
structure VkImageMemoryBarrier where
  sType : Nat
  pNext : Nat
  srcAccessMask : Nat
  dstAccessMask : Nat
  oldLayout : VkImageLayout
  newLayout : VkImageLayout
  srcQueueFamilyIndex : Nat
  dstQueueFamilyIndex : Nat
  image : Nat
  subresourceRange : VkImageSubresourceRange
deriving DecidableEq, Repr

/-- `VkMemoryBarrier` (only the access masks matter for the model). -/
structure VkMemoryBarrier where
  srcAccessMask : Nat
  dstAccessMask : Nat
deriving DecidableEq, Repr

/-- `VkBufferMemoryBarrier` (opaque buffer handle plus access masks). -/
structure VkBufferMemoryBarrier where
  srcAccessMask : Nat
  dstAccessMask : Nat
  buffer : Nat
deriving DecidableEq, Repr

/-- `VkImageMemoryBarrier imageBarrier = {};` — C++ value-initialization
sets every scalar field to zero (image layout 0 is
`VK_IMAGE_LAYOUT_UNDEFINED`). -/
def zeroImageMemoryBarrier : VkImageMemoryBarrier :=
  { sType := 0, pNext := 0, srcAccessMask := 0, dstAccessMask := 0,
    oldLayout := VkImageLayout.undefined, newLayout := VkImageLayout.undefined,
    srcQueueFamilyIndex := 0, dstQueueFamilyIndex := 0, image := 0,
    subresourceRange :=
      { aspectMask := 0, baseMipLevel := 0, levelCount := 0,
        baseArrayLayer := 0, layerCount := 0 } }

/-- The state of `imageBarrier` in `setImageLayout` after the explicit
field assignments and the first `switch (oldLayout)`, before the
`switch (newLayout)`. -/
def barrierAfterOldSwitch (image aspects : Nat)
    (oldLayout newLayout : VkImageLayout) : VkImageMemoryBarrier :=
  let imageBarrier := zeroImageMemoryBarrier
  let imageBarrier :=
    { imageBarrier with
      sType := VK_STRUCTURE_TYPE_IMAGE_MEMORY_BARRIER,
      pNext := 0,
      oldLayout := oldLayout,
      newLayout := newLayout,
      image := image,
      subresourceRange :=
        { imageBarrier.subresourceRange with
          aspectMask := aspects, baseMipLevel := 0,
          levelCount := 1, layerCount := 1 } }
  match oldLayout with
  | VkImageLayout.preinitialized =>
      { imageBarrier with
        srcAccessMask := VK_ACCESS_HOST_WRITE_BIT ||| VK_ACCESS_TRANSFER_WRITE_BIT }
  | VkImageLayout.colorAttachmentOptimal =>
      { imageBarrier with srcAccessMask := VK_ACCESS_COLOR_ATTACHMENT_WRITE_BIT }
  | VkImageLayout.depthStencilAttachmentOptimal =>
      { imageBarrier with
        srcAccessMask := VK_ACCESS_DEPTH_STENCIL_ATTACHMENT_WRITE_BIT }
  | VkImageLayout.transferSrcOptimal =>
      { imageBarrier with srcAccessMask := VK_ACCESS_TRANSFER_READ_BIT }
  | VkImageLayout.shaderReadOnlyOptimal =>
      { imageBarrier with srcAccessMask := VK_ACCESS_SHADER_READ_BIT }
  | _ => imageBarrier

/-- The complete `imageBarrier` built by `setImageLayout`: the state after
both switches. -/
def setImageLayoutBarrier (image aspects : Nat)
    (oldLayout newLayout : VkImageLayout) : VkImageMemoryBarrier :=
  let imageBarrier := barrierAfterOldSwitch image aspects oldLayout newLayout
  match newLayout with
  | VkImageLayout.transferDstOptimal =>
      { imageBarrier with dstAccessMask := VK_ACCESS_TRANSFER_WRITE_BIT }
  | VkImageLayout.transferSrcOptimal =>
      { imageBarrier with
        srcAccessMask := imageBarrier.srcAccessMask ||| VK_ACCESS_TRANSFER_READ_BIT,
        dstAccessMask := VK_ACCESS_TRANSFER_READ_BIT }
  | VkImageLayout.colorAttachmentOptimal =>
      { imageBarrier with
        dstAccessMask := VK_ACCESS_COLOR_ATTACHMENT_WRITE_BIT,
        srcAccessMask := VK_ACCESS_TRANSFER_READ_BIT }
  | VkImageLayout.depthStencilAttachmentOptimal =>
      { imageBarrier with
        dstAccessMask :=
          imageBarrier.dstAccessMask ||| VK_ACCESS_DEPTH_STENCIL_ATTACHMENT_WRITE_BIT }
  | VkImageLayout.shaderReadOnlyOptimal =>
      { imageBarrier with
        srcAccessMask := VK_ACCESS_HOST_WRITE_BIT ||| VK_ACCESS_TRANSFER_WRITE_BIT,
        dstAccessMask := VK_ACCESS_SHADER_READ_BIT }
  | _ => imageBarrier

/-- One recorded `vkCmdPipelineBarrier` command. -/
structure PipelineBarrierCmd where
  srcStageMask : Nat
  dstStageMask : Nat
  dependencyFlags : Nat
  memoryBarriers : List VkMemoryBarrier
  bufferMemoryBarriers : List VkBufferMemoryBarrier
  imageMemoryBarriers : List VkImageMemoryBarrier
deriving DecidableEq, Repr

/-- A command buffer is modelled by the list of pipeline-barrier commands
recorded into it, in order. -/
def VkCommandBuffer := List PipelineBarrierCmd

/-- `vkCmdPipelineBarrier` appends one command record to the buffer. -/
def vkCmdPipelineBarrier (cmdBuffer : List PipelineBarrierCmd)
    (srcStageMask dstStageMask dependencyFlags : Nat)
    (memoryBarriers : List VkMemoryBarrier)
    (bufferMemoryBarriers : List VkBufferMemoryBarrier)
    (imageMemoryBarriers : List VkImageMemoryBarrier) :
    List PipelineBarrierCmd :=
  cmdBuffer ++
    [{ srcStageMask := srcStageMask, dstStageMask := dstStageMask,
       dependencyFlags := dependencyFlags,
       memoryBarriers := memoryBarriers,
       bufferMemoryBarriers := bufferMemoryBarriers,
       imageMemoryBarriers := imageMemoryBarriers }]

/-- `setImageLayout(cmdBuffer, image, aspects, oldLayout, newLayout)`:
build `imageBarrier` and record
`vkCmdPipelineBarrier(cmdBuffer, srcFlags, dstFlags, 0, 0, NULL, 0, NULL,
1, &imageBarrier)` with both stage flags `TOP_OF_PIPE`. -/
def setImageLayout (cmdBuffer : List PipelineBarrierCmd)
    (image aspects : Nat) (oldLayout newLayout : VkImageLayout) :
    List PipelineBarrierCmd :=
  let imageBarrier := setImageLayoutBarrier image aspects oldLayout newLayout
  let srcFlags := VK_PIPELINE_STAGE_TOP_OF_PIPE_BIT
  let dstFlags := VK_PIPELINE_STAGE_TOP_OF_PIPE_BIT
  vkCmdPipelineBarrier cmdBuffer srcFlags dstFlags 0 [] [] [imageBarrier]

/-- Variant of `setImageLayoutBarrier` for the refinement comparison: the
depth-stencil-attachment-optimal case of the `newLayout` switch uses a
plain assignment `dstAccessMask = ...` instead of the source's merge
`dstAccessMask |= ...`.  Every other case is unchanged. -/
def setImageLayoutBarrierAssign (image aspects : Nat)
    (oldLayout newLayout : VkImageLayout) : VkImageMemoryBarrier :=
  let imageBarrier := barrierAfterOldSwitch image aspects oldLayout newLayout
  match newLayout with
  | VkImageLayout.transferDstOptimal =>
      { imageBarrier with dstAccessMask := VK_ACCESS_TRANSFER_WRITE_BIT }
  | VkImageLayout.transferSrcOptimal =>
      { imageBarrier with
        srcAccessMask := imageBarrier.srcAccessMask ||| VK_ACCESS_TRANSFER_READ_BIT,
        dstAccessMask := VK_ACCESS_TRANSFER_READ_BIT }
  | VkImageLayout.colorAttachmentOptimal =>
      { imageBarrier with
        dstAccessMask := VK_ACCESS_COLOR_ATTACHMENT_WRITE_BIT,
        srcAccessMask := VK_ACCESS_TRANSFER_READ_BIT }
  | VkImageLayout.depthStencilAttachmentOptimal =>
      { imageBarrier with
        dstAccessMask := VK_ACCESS_DEPTH_STENCIL_ATTACHMENT_WRITE_BIT }
  | VkImageLayout.shaderReadOnlyOptimal =>
      { imageBarrier with
        srcAccessMask := VK_ACCESS_HOST_WRITE_BIT ||| VK_ACCESS_TRANSFER_WRITE_BIT,
        dstAccessMask := VK_ACCESS_SHADER_READ_BIT }
  | _ => imageBarrier

/-! ## `VulkanExample::initDevices` and `VulkanExample::initSurface` -/

/-- `VulkanExample::initDevices`, physical-device selection portion.
The two `vkEnumeratePhysicalDevices` calls are external: their results
(`result1`, the reported `deviceCount`, `result2`, and the filled
`physicalDevices` vector) are inputs to the model.  `exitOnError`
becomes `Except.error`; the selected device (`physicalDevices[0]`) is
returned on success.  Device handles are opaque `Nat`s. -/
def initDevices (result1 : Int) (deviceCount : Nat) (result2 : Int)
    (physicalDevices : List Nat) : Except String Nat :=
  if result1 ≠ VK_SUCCESS then
    Except.error "Failed to enumerate physical devices in the system."
  else if deviceCount < 1 then
    Except.error
      "vkEnumeratePhysicalDevices did not report any availible devices that support Vulkan. Do you have a compatible Vulkan installable client driver (ICD)?"
  else if result2 ≠ VK_SUCCESS then
    Except.error "Failed to enumerate physical devices in the system."
  else
    Except.ok (physicalDevices.headD 0)

/-- `VkSurfaceFormatKHR` (format and color space as raw enum values). -/
structure VkSurfaceFormatKHR where
  format : Nat
  colorSpace : Nat
deriving DecidableEq, Repr

/-- `VulkanExample::initSurface`, surface-format selection portion
(after surface creation).  The two
`vkGetPhysicalDeviceSurfaceFormatsKHR` calls are external: their results
(`result1`, the reported `formatCount`, `result2`, and the filled
`surfaceFormats` vector) are inputs.  `colorFormat0` is the prior value
of the member `colorFormat` (only reachable into the result if neither
branch of the final `if`/`else if` fires, which cannot happen past the
error checks).  On success returns the pair
`(colorFormat, colorSpace)`. -/
def initSurfaceFormats (colorFormat0 : Nat) (result1 : Int)
    (formatCount : Nat) (result2 : Int)
    (surfaceFormats : List VkSurfaceFormatKHR) :
    Except String (Nat × Nat) :=
  if result1 ≠ VK_SUCCESS ∨ formatCount < 1 then
    Except.error "Failed to get device surface formats."
  else if result2 ≠ VK_SUCCESS ∨ formatCount < 1 then
    Except.error "Failed to get device surface formats."
  else
    let colorFormat :=
      if formatCount = 1 ∧
          (surfaceFormats.headD { format := 0, colorSpace := 0 }).format =
            VK_FORMAT_UNDEFINED then
        VK_FORMAT_B8G8R8A8_UNORM
      else if 1 ≤ formatCount then
        (surfaceFormats.headD { format := 0, colorSpace := 0 }).format
      else
        colorFormat0
    Except.ok
      (colorFormat,
       (surfaceFormats.headD { format := 0, colorSpace := 0 }).colorSpace)

/-! ## Theorems -/

/-- Claim C1: for every (oldLayout, newLayout) pair, after `srcAccessMask`
has been derived from `oldLayout`, the `newLayout` switch maps:
transfer-destination-optimal sets `dstAccessMask` to transfer-write;
transfer-source-optimal merges transfer-read into `srcAccessMask` and sets
`dstAccessMask` to transfer-read; color-attachment-optimal sets
`dstAccessMask` to color-attachment-write and overwrites `srcAccessMask`
to transfer-read; depth-stencil-attachment-optimal merges
depth-stencil-attachment-write into `dstAccessMask`;
shader-read-only-optimal overwrites `srcAccessMask` to
host-write | transfer-write and sets `dstAccessMask` to shader-read; any
other `newLayout` leaves both masks unchanged. -/
theorem setImageLayout_newLayout_mapping (image aspects : Nat)
    (oldLayout newLayout : VkImageLayout) :
    match newLayout with
    | VkImageLayout.transferDstOptimal =>
        (setImageLayoutBarrier image aspects oldLayout newLayout).dstAccessMask =
          VK_ACCESS_TRANSFER_WRITE_BIT ∧
        (setImageLayoutBarrier image aspects oldLayout newLayout).srcAccessMask =
          (barrierAfterOldSwitch image aspects oldLayout newLayout).srcAccessMask
    | VkImageLayout.transferSrcOptimal =>
        (setImageLayoutBarrier image aspects oldLayout newLayout).srcAccessMask =
          (barrierAfterOldSwitch image aspects oldLayout newLayout).srcAccessMask |||
            VK_ACCESS_TRANSFER_READ_BIT ∧
        (setImageLayoutBarrier image aspects oldLayout newLayout).dstAccessMask =
          VK_ACCESS_TRANSFER_READ_BIT
    | VkImageLayout.colorAttachmentOptimal =>
        (setImageLayoutBarrier image aspects oldLayout newLayout).dstAccessMask =
          VK_ACCESS_COLOR_ATTACHMENT_WRITE_BIT ∧
        (setImageLayoutBarrier image aspects oldLayout newLayout).srcAccessMask =
          VK_ACCESS_TRANSFER_READ_BIT
    | VkImageLayout.depthStencilAttachmentOptimal =>
        (setImageLayoutBarrier image aspects oldLayout newLayout).dstAccessMask =
          (barrierAfterOldSwitch image aspects oldLayout newLayout).dstAccessMask |||
            VK_ACCESS_DEPTH_STENCIL_ATTACHMENT_WRITE_BIT ∧
        (setImageLayoutBarrier image aspects oldLayout newLayout).srcAccessMask =
          (barrierAfterOldSwitch image aspects oldLayout newLayout).srcAccessMask
    | VkImageLayout.shaderReadOnlyOptimal =>
        (setImageLayoutBarrier image aspects oldLayout newLayout).srcAccessMask =
          VK_ACCESS_HOST_WRITE_BIT ||| VK_ACCESS_TRANSFER_WRITE_BIT ∧
        (setImageLayoutBarrier image aspects oldLayout newLayout).dstAccessMask =
          VK_ACCESS_SHADER_READ_BIT
    | _ =>
        (setImageLayoutBarrier image aspects oldLayout newLayout).srcAccessMask =
          (barrierAfterOldSwitch image aspects oldLayout newLayout).srcAccessMask ∧
        (setImageLayoutBarrier image aspects oldLayout newLayout).dstAccessMask =
          (barrierAfterOldSwitch image aspects oldLayout newLayout).dstAccessMask := by
  cases newLayout <;> cases oldLayout <;> exact ⟨rfl, rfl⟩

/-- Claim C2: `setImageLayout` derives `srcAccessMask` from `oldLayout` by
a fixed table: pre-initialized gives host-write | transfer-write,
color-attachment-optimal gives color-attachment-write,
depth-stencil-attachment-optimal gives depth-stencil-attachment-write,
transfer-source-optimal gives transfer-read, shader-read-only-optimal
gives shader-read, and every other value (including undefined) leaves
`srcAccessMask` zero. -/
theorem setImageLayout_oldLayout_table (image aspects : Nat)
    (oldLayout newLayout : VkImageLayout) :
    (barrierAfterOldSwitch image aspects oldLayout newLayout).srcAccessMask =
      match oldLayout with
      | VkImageLayout.preinitialized =>
          VK_ACCESS_HOST_WRITE_BIT ||| VK_ACCESS_TRANSFER_WRITE_BIT
      | VkImageLayout.colorAttachmentOptimal =>
          VK_ACCESS_COLOR_ATTACHMENT_WRITE_BIT
      | VkImageLayout.depthStencilAttachmentOptimal =>
          VK_ACCESS_DEPTH_STENCIL_ATTACHMENT_WRITE_BIT
      | VkImageLayout.transferSrcOptimal => VK_ACCESS_TRANSFER_READ_BIT
      | VkImageLayout.shaderReadOnlyOptimal => VK_ACCESS_SHADER_READ_BIT
      | _ => 0 := by
  cases oldLayout <;> rfl

/-- Claim C3: `setImageLayout` never rejects any input: even when
`newLayout` matches none of the five cases of the second switch
(including the forbidden values undefined and pre-initialized), exactly
one pipeline-barrier command carrying exactly one image barrier is still
recorded, and that barrier's `dstAccessMask` is zero. -/
theorem setImageLayout_never_rejects (cmdBuffer : List PipelineBarrierCmd)
    (image aspects : Nat) (oldLayout newLayout : VkImageLayout)
    (h1 : newLayout ≠ VkImageLayout.transferDstOptimal)
    (h2 : newLayout ≠ VkImageLayout.transferSrcOptimal)
    (h3 : newLayout ≠ VkImageLayout.colorAttachmentOptimal)
    (h4 : newLayout ≠ VkImageLayout.depthStencilAttachmentOptimal)
    (h5 : newLayout ≠ VkImageLayout.shaderReadOnlyOptimal) :
    setImageLayout cmdBuffer image aspects oldLayout newLayout =
      cmdBuffer ++
        [{ srcStageMask := VK_PIPELINE_STAGE_TOP_OF_PIPE_BIT,
           dstStageMask := VK_PIPELINE_STAGE_TOP_OF_PIPE_BIT,
           dependencyFlags := 0, memoryBarriers := [],
           bufferMemoryBarriers := [],
           imageMemoryBarriers :=
             [setImageLayoutBarrier image aspects oldLayout newLayout] }] ∧
    (setImageLayoutBarrier image aspects oldLayout newLayout).dstAccessMask = 0 := by
  refine ⟨rfl, ?_⟩
  cases newLayout with
  | transferDstOptimal => exact absurd rfl h1
  | transferSrcOptimal => exact absurd rfl h2
  | colorAttachmentOptimal => exact absurd rfl h3
  | depthStencilAttachmentOptimal => exact absurd rfl h4
  | shaderReadOnlyOptimal => exact absurd rfl h5
  | undefined => cases oldLayout <;> rfl
  | general => cases oldLayout <;> rfl
  | depthStencilReadOnlyOptimal => cases oldLayout <;> rfl
  | preinitialized => cases oldLayout <;> rfl

/-- Claim C3, witness: a concrete call with `newLayout` = general records
one barrier with zero `dstAccessMask`. -/
theorem setImageLayout_never_rejects_witness :
    setImageLayout [] 5 1 VkImageLayout.undefined VkImageLayout.general =
      [{ srcStageMask := VK_PIPELINE_STAGE_TOP_OF_PIPE_BIT,
         dstStageMask := VK_PIPELINE_STAGE_TOP_OF_PIPE_BIT,
         dependencyFlags := 0, memoryBarriers := [],
         bufferMemoryBarriers := [],
         imageMemoryBarriers :=
           [setImageLayoutBarrier 5 1 VkImageLayout.undefined
              VkImageLayout.general] }] ∧
    (setImageLayoutBarrier 5 1 VkImageLayout.undefined
        VkImageLayout.general).dstAccessMask = 0 :=
  setImageLayout_never_rejects [] 5 1 VkImageLayout.undefined
    VkImageLayout.general (by decide) (by decide) (by decide) (by decide)
    (by decide)

/-- Claim C4, counterexample: the claim that the recorded barrier's queue
family indices carry `VK_QUEUE_FAMILY_IGNORED` is false — at a concrete
call neither index is `VK_QUEUE_FAMILY_IGNORED` (the code never assigns
them, so they keep the zero from `= {}`). -/
theorem setImageLayout_queueFamily_not_ignored :
    (setImageLayoutBarrier 1 1 VkImageLayout.preinitialized
        VkImageLayout.transferDstOptimal).srcQueueFamilyIndex ≠
      VK_QUEUE_FAMILY_IGNORED ∧
    (setImageLayoutBarrier 1 1 VkImageLayout.preinitialized
        VkImageLayout.transferDstOptimal).dstQueueFamilyIndex ≠
      VK_QUEUE_FAMILY_IGNORED := by
  decide

/-- Claim C4, amended: for every call to `setImageLayout`, the recorded
barrier's `srcQueueFamilyIndex` and `dstQueueFamilyIndex` are both 0 —
the zero-initialized value, which the code never overwrites (so they are
equal, but they do not hold `VK_QUEUE_FAMILY_IGNORED`). -/
theorem setImageLayout_queueFamily_zero (image aspects : Nat)
    (oldLayout newLayout : VkImageLayout) :
    (setImageLayoutBarrier image aspects oldLayout newLayout).srcQueueFamilyIndex = 0 ∧
    (setImageLayoutBarrier image aspects oldLayout newLayout).dstQueueFamilyIndex = 0 := by
  cases oldLayout <;> cases newLayout <;> exact ⟨rfl, rfl⟩

/-- Claim C5: for every call to `setImageLayout`, the barrier's
subresource range has `aspectMask` equal to the input aspects,
`baseMipLevel` 0, `levelCount` 1 and `layerCount` 1, regardless of the
other inputs. -/
theorem setImageLayout_subresourceRange (image aspects : Nat)
    (oldLayout newLayout : VkImageLayout) :
    (setImageLayoutBarrier image aspects oldLayout
        newLayout).subresourceRange.aspectMask = aspects ∧
    (setImageLayoutBarrier image aspects oldLayout
        newLayout).subresourceRange.baseMipLevel = 0 ∧
    (setImageLayoutBarrier image aspects oldLayout
        newLayout).subresourceRange.levelCount = 1 ∧
    (setImageLayoutBarrier image aspects oldLayout
        newLayout).subresourceRange.layerCount = 1 := by
  cases oldLayout <;> cases newLayout <;> exact ⟨rfl, rfl, rfl, rfl⟩

/-- Claim C6: every call to `setImageLayout` records exactly one
pipeline-barrier command with exactly one image memory barrier, zero
memory barriers, zero buffer memory barriers, top-of-pipe for both stage
masks, and dependency flags zero. -/
theorem setImageLayout_records_one_barrier
    (cmdBuffer : List PipelineBarrierCmd) (image aspects : Nat)
    (oldLayout newLayout : VkImageLayout) :
    setImageLayout cmdBuffer image aspects oldLayout newLayout =
      cmdBuffer ++
        [{ srcStageMask := VK_PIPELINE_STAGE_TOP_OF_PIPE_BIT,
           dstStageMask := VK_PIPELINE_STAGE_TOP_OF_PIPE_BIT,
           dependencyFlags := 0, memoryBarriers := [],
           bufferMemoryBarriers := [],
           imageMemoryBarriers :=
             [setImageLayoutBarrier image aspects oldLayout newLayout] }] :=
  rfl

/-- Claim C7: `setImageLayout` is deterministic — the commands a call
appends depend only on its arguments (the same for any prior buffer
contents), and calling it twice with identical arguments appends two
identical recordings. -/
theorem setImageLayout_deterministic
    (cmdBuffer cmdBuffer2 : List PipelineBarrierCmd) (image aspects : Nat)
    (oldLayout newLayout : VkImageLayout) :
    List.drop cmdBuffer.length
        (setImageLayout cmdBuffer image aspects oldLayout newLayout) =
      List.drop cmdBuffer2.length
        (setImageLayout cmdBuffer2 image aspects oldLayout newLayout) ∧
    List.drop cmdBuffer.length
        (setImageLayout
          (setImageLayout cmdBuffer image aspects oldLayout newLayout)
          image aspects oldLayout newLayout) =
      List.drop cmdBuffer.length
          (setImageLayout cmdBuffer image aspects oldLayout newLayout) ++
        List.drop cmdBuffer.length
          (setImageLayout cmdBuffer image aspects oldLayout newLayout) := by
  constructor
  · simp [setImageLayout, vkCmdPipelineBarrier, List.drop_left]
  · simp [setImageLayout, vkCmdPipelineBarrier, List.append_assoc,
      List.drop_left]

/-- Claim C8: `dstAccessMask` is still zero when the
depth-stencil-attachment-optimal case of the `newLayout` switch runs, so
replacing its merge (`dstAccessMask |= ...`) with a plain assignment
yields an identical barrier for all inputs. -/
theorem setImageLayout_dstMerge_equiv_assign (image aspects : Nat)
    (oldLayout newLayout : VkImageLayout) :
    (barrierAfterOldSwitch image aspects oldLayout newLayout).dstAccessMask = 0 ∧
    setImageLayoutBarrier image aspects oldLayout newLayout =
      setImageLayoutBarrierAssign image aspects oldLayout newLayout := by
  cases oldLayout <;> cases newLayout <;> refine ⟨rfl, ?_⟩ <;>
    simp [setImageLayoutBarrier, setImageLayoutBarrierAssign,
      barrierAfterOldSwitch, zeroImageMemoryBarrier, Nat.zero_or]

/-- Claim C9: in `initSurface`, once the surface-format query succeeds
with at least one format, the chosen `colorFormat` is
`VK_FORMAT_B8G8R8A8_UNORM` when `formatCount = 1` and the single reported
format is `VK_FORMAT_UNDEFINED`, and otherwise is the first reported
format; `colorSpace` is always the first reported format's color
space. -/
theorem initSurface_colorFormat_selection (colorFormat0 : Nat)
    (result1 : Int) (formatCount : Nat) (result2 : Int)
    (surfaceFormats : List VkSurfaceFormatKHR)
    (h1 : result1 = VK_SUCCESS) (h2 : result2 = VK_SUCCESS)
    (h3 : 1 ≤ formatCount) :
    initSurfaceFormats colorFormat0 result1 formatCount result2
        surfaceFormats =
      Except.ok
        ((if formatCount = 1 ∧
              (surfaceFormats.headD { format := 0, colorSpace := 0 }).format =
                VK_FORMAT_UNDEFINED then
            VK_FORMAT_B8G8R8A8_UNORM
          else
            (surfaceFormats.headD { format := 0, colorSpace := 0 }).format),
         (surfaceFormats.headD { format := 0, colorSpace := 0 }).colorSpace) := by
  have hlt : ¬ formatCount < 1 := Nat.not_lt.mpr h3
  simp [initSurfaceFormats, h1, h2, hlt, h3]

/-- Claim C9, witness: one reported format equal to `VK_FORMAT_UNDEFINED`
yields the `B8G8R8A8_UNORM` default and that format's color space. -/
theorem initSurface_colorFormat_selection_witness :
    initSurfaceFormats 7 0 1 0 [{ format := 0, colorSpace := 9 }] =
      Except.ok (VK_FORMAT_B8G8R8A8_UNORM, 9) := by
  have h := initSurface_colorFormat_selection 7 0 1 0
    [{ format := 0, colorSpace := 9 }] rfl rfl (by decide)
  simpa [VK_FORMAT_UNDEFINED] using h

/-- Claim C10: `initDevices` fails exactly when one of the two
physical-device enumeration calls returns a non-success result or the
reported device count is below one, and otherwise unconditionally selects
the first enumerated physical device (index 0), regardless of the
devices themselves. -/
theorem initDevices_first_device (result1 : Int) (deviceCount : Nat)
    (result2 : Int) (physicalDevices : List Nat) :
    ((∃ e, initDevices result1 deviceCount result2 physicalDevices =
        Except.error e) ↔
      (result1 ≠ VK_SUCCESS ∨ deviceCount < 1 ∨ result2 ≠ VK_SUCCESS)) ∧
    (result1 = VK_SUCCESS → 1 ≤ deviceCount → result2 = VK_SUCCESS →
      initDevices result1 deviceCount result2 physicalDevices =
        Except.ok (physicalDevices.headD 0)) := by
  by_cases hr1 : result1 = VK_SUCCESS <;>
    by_cases hdc : deviceCount < 1 <;>
    by_cases hr2 : result2 = VK_SUCCESS <;>
    simp [initDevices, hr1, hdc, hr2, Nat.not_lt] at *

/-- Claim C10, witness: with successful enumeration of two devices the
first is selected; with a device count of zero an error is reported. -/
theorem initDevices_first_device_witness :
    initDevices 0 2 0 [5, 6] = Except.ok 5 ∧
    (∃ e, initDevices 0 0 0 [5] = Except.error e) := by
  constructor
  · exact (initDevices_first_device 0 2 0 [5, 6]).2 rfl (by decide) rfl
  · exact (initDevices_first_device 0 0 0 [5]).1.mpr
      (Or.inr (Or.inl (by decide)))
